import Mathlib

/-!
Verification development for the dota2data repository: a shallow embedding
of its Python modules (src/config.py, src/parsers/liquipedia.py,
src/parsers/opendota.py, src/main.py) together with theorems settling the
specified behaviour of the embedded operations.

Modelling conventions used throughout:

* Python dictionaries are association lists over `String` keys holding
  `JVal` values (a JSON-like value type); insertion order of the source
  dict literal is preserved, and key assignment updates in place or
  appends, exactly as CPython does.
* Wall-clock time (`time.time()`) is modelled by the rationals, and the
  network, the disk cache and the HTML parser are oracle parameters; a
  `requests.RequestException` is the oracle answering `none`.
* Python code that would raise an uncaught exception is modelled with an
  `Option` result whose `none` stands for the raised exception.
* BeautifulSoup documents are structures carrying, per CSS selector the
  code queries, the already-stripped text of the matching elements.
-/

/-- JSON-like Python values: `null` stands for Python `None`. -/
inductive JVal where
  | null : JVal
  | bool : Bool → JVal
  | num : Int → JVal
  | str : String → JVal
  | arr : List JVal → JVal
  | obj : List (String × JVal) → JVal

/-- Python truthiness of a `JVal` (`None`, `False`, `0`, empty string,
empty list and empty dict are falsy). -/
def jTruthy : JVal → Bool
  | .null => false
  | .bool b => b
  | .num n => n != 0
  | .str s => s != ""
  | .arr xs => !xs.isEmpty
  | .obj kvs => !kvs.isEmpty

/-- Python `d.get(k)`: the stored value, or `None` when the key is absent. -/
def dGet (kvs : List (String × JVal)) (k : String) : JVal :=
  (List.lookup k kvs).getD .null

/-- Python `d.get(k, default)`. -/
def dGetD (kvs : List (String × JVal)) (k : String) (d : JVal) : JVal :=
  (List.lookup k kvs).getD d

/-- Python `d[k] = v` on a dict represented as an association list:
update in place when the key exists, append otherwise. -/
def dictSet (kvs : List (String × JVal)) (k : String) (v : JVal) : List (String × JVal) :=
  match kvs with
  | [] => [(k, v)]
  | (k2, v2) :: rest => if k2 = k then (k, v) :: rest else (k2, v2) :: dictSet rest k v

theorem lookup_dictSet_self (kvs : List (String × JVal)) (k : String) (v : JVal) :
    List.lookup k (dictSet kvs k v) = some v := by
  induction kvs with
  | nil => simp [dictSet, List.lookup]
  | cons hd tl ih =>
    obtain ⟨k2, v2⟩ := hd
    by_cases h : k2 = k
    · subst h
      simp [dictSet, List.lookup]
    · have hb : (k == k2) = false := by simpa [beq_iff_eq] using Ne.symm h
      simp [dictSet, h, List.lookup, hb, ih]

theorem lookup_dictSet_ne (kvs : List (String × JVal)) (k k2 : String) (v : JVal)
    (h : k2 ≠ k) : List.lookup k2 (dictSet kvs k v) = List.lookup k2 kvs := by
  have hb : (k2 == k) = false := by simpa [beq_iff_eq] using h
  induction kvs with
  | nil => simp [dictSet, List.lookup, hb]
  | cons hd tl ih =>
    obtain ⟨k3, v3⟩ := hd
    by_cases h3 : k3 = k
    · subst h3
      simp [dictSet, List.lookup, hb]
    · simp only [dictSet, if_neg h3]
      cases hkk : k2 == k3 <;> simp [List.lookup, hkk, ih]

/-!
## MD5 (model of Python hashlib.md5)

`LiquipediaParser._get_cache_path` names cache files by
`hashlib.md5(url.encode()).hexdigest()`.  The library hash is embedded as
a direct transcription of the MD5 algorithm (RFC 1321) over `Nat`, with
explicit reduction modulo 2^32.
-/

/-- Left-rotation of a 32-bit word held in a `Nat`. -/
def rotl32 (x c : Nat) : Nat :=
  ((x <<< c) ||| (x >>> (32 - c))) % 4294967296

/-- The per-round shift amounts of MD5. -/
def md5Shifts : List Nat :=
  [7, 12, 17, 22, 7, 12, 17, 22, 7, 12, 17, 22, 7, 12, 17, 22,
   5, 9, 14, 20, 5, 9, 14, 20, 5, 9, 14, 20, 5, 9, 14, 20,
   4, 11, 16, 23, 4, 11, 16, 23, 4, 11, 16, 23, 4, 11, 16, 23,
   6, 10, 15, 21, 6, 10, 15, 21, 6, 10, 15, 21, 6, 10, 15, 21]

/-- The MD5 sine-derived constant table. -/
def md5K : List Nat :=
  [0xd76aa478, 0xe8c7b756, 0x242070db, 0xc1bdceee,
   0xf57c0faf, 0x4787c62a, 0xa8304613, 0xfd469501,
   0x698098d8, 0x8b44f7af, 0xffff5bb1, 0x895cd7be,
   0x6b901122, 0xfd987193, 0xa679438e, 0x49b40821,
   0xf61e2562, 0xc040b340, 0x265e5a51, 0xe9b6c7aa,
   0xd62f105d, 0x02441453, 0xd8a1e681, 0xe7d3fbc8,
   0x21e1cde6, 0xc33707d6, 0xf4d50d87, 0x455a14ed,
   0xa9e3e905, 0xfcefa3f8, 0x676f02d9, 0x8d2a4c8a,
   0xfffa3942, 0x8771f681, 0x6d9d6122, 0xfde5380c,
   0xa4beea44, 0x4bdecfa9, 0xf6bb4b60, 0xbebfbc70,
   0x289b7ec6, 0xeaa127fa, 0xd4ef3085, 0x04881d05,
   0xd9d4d039, 0xe6db99e5, 0x1fa27cf8, 0xc4ac5665,
   0xf4292244, 0x432aff97, 0xab9423a7, 0xfc93a039,
   0x655b59c3, 0x8f0ccc92, 0xffeff47d, 0x85845dd1,
   0x6fa87e4f, 0xfe2ce6e0, 0xa3014314, 0x4e0811a1,
   0xf7537e82, 0xbd3af235, 0x2ad7d2bb, 0xeb86d391]

/-- Mixing function and message index for round `i` of MD5. -/
def md5Round (i b c d : Nat) : Nat × Nat :=
  if i < 16 then ((b &&& c) ||| ((b ^^^ 0xffffffff) &&& d), i)
  else if i < 32 then ((d &&& b) ||| ((d ^^^ 0xffffffff) &&& c), (5 * i + 1) % 16)
  else if i < 48 then (b ^^^ c ^^^ d, (3 * i + 5) % 16)
  else (c ^^^ (b ||| (d ^^^ 0xffffffff)), (7 * i) % 16)

/-- One MD5 round step on the four-word state, given the 16 message words. -/
def md5Step (m : List Nat) (st : Nat × Nat × Nat × Nat) (i : Nat) : Nat × Nat × Nat × Nat :=
  let a := st.1
  let b := st.2.1
  let c := st.2.2.1
  let d := st.2.2.2
  let fg := md5Round i b c d
  let tmp := (a + fg.1 + md5K.getD i 0 + m.getD fg.2 0) % 4294967296
  (d, (b + rotl32 tmp (md5Shifts.getD i 0)) % 4294967296, b, c)

/-- Decode a 64-byte chunk into 16 little-endian 32-bit words. -/
def md5Words (chunk : List Nat) : List Nat :=
  (List.range 16).map fun j =>
    chunk.getD (4 * j) 0 + 256 * chunk.getD (4 * j + 1) 0 +
      65536 * chunk.getD (4 * j + 2) 0 + 16777216 * chunk.getD (4 * j + 3) 0

/-- Process one 64-byte chunk, updating the running digest state. -/
def md5Chunk (st : Nat × Nat × Nat × Nat) (chunk : List Nat) : Nat × Nat × Nat × Nat :=
  let m := md5Words chunk
  let r := (List.range 64).foldl (md5Step m) st
  ((st.1 + r.1) % 4294967296, (st.2.1 + r.2.1) % 4294967296,
   (st.2.2.1 + r.2.2.1) % 4294967296, (st.2.2.2 + r.2.2.2) % 4294967296)

/-- MD5 padding: append 0x80, zero bytes to 56 mod 64, then the bit length
as eight little-endian bytes. -/
def md5Pad (msg : List Nat) : List Nat :=
  let len := msg.length
  let zeros := (120 - ((len + 1) % 64)) % 64
  let bits := (8 * len) % 18446744073709551616
  msg ++ [0x80] ++ List.replicate zeros 0 ++
    (List.range 8).map fun j => bits / (256 ^ j) % 256

/-- Split a byte list into 64-byte chunks. -/
def chunks64 : List Nat → List (List Nat)
  | [] => []
  | b :: rest => ((b :: rest).take 64) :: chunks64 ((b :: rest).drop 64)
termination_by l => l.length
decreasing_by simp; omega

/-- Hex digit as a one-character string (lowercase, as hexdigest). -/
def hexChar (n : Nat) : String :=
  ["0", "1", "2", "3", "4", "5", "6", "7",
   "8", "9", "a", "b", "c", "d", "e", "f"].getD n "0"

/-- Two lowercase hex digits for one byte. -/
def byteHex (b : Nat) : String :=
  hexChar (b / 16 % 16) ++ hexChar (b % 16)

/-- The four little-endian bytes of a 32-bit word. -/
def wordBytesLE (w : Nat) : List Nat :=
  [w % 256, w / 256 % 256, w / 65536 % 256, w / 16777216 % 256]

/-- MD5 hex digest of a byte string: model of
`hashlib.md5(data).hexdigest()`. -/
def md5Hex (msg : List Nat) : String :=
  let st := (chunks64 (md5Pad msg)).foldl md5Chunk
    (0x67452301, 0xefcdab89, 0x98badcfe, 0x10325476)
  ((wordBytesLE st.1 ++ wordBytesLE st.2.1 ++ wordBytesLE st.2.2.1 ++
      wordBytesLE st.2.2.2).map byteHex).foldl (· ++ ·) ""

/-- UTF-8 bytes of a string: model of Python str.encode(). -/
def strBytes (s : String) : List Nat :=
  s.toUTF8.toList.map (fun b => b.toNat)

/-!
## LiquipediaParser: rate limiting, disk cache and page fetching
(src/parsers/liquipedia.py)

The constructor always sets `cache_enabled = True`; the flag is still
carried as a parameter so the guards of `_get_cached` and `_save_cache`
are embedded as written.  `time.time()` is idealised as a single rational
instant `now` per `_fetch_page` call, the disk is an oracle from file
names to cache entries, and the page body returned by `requests` is an
oracle from URLs to `Option String` (`none` = `requests.RequestException`).
-/

namespace Liquipedia

/-- One cache file on disk: the JSON blob `_save_cache` writes, holding
the save-time timestamp and the page content. -/
structure CacheEntry where
  timestamp : ℚ
  content : String
deriving DecidableEq

/-- `LiquipediaParser._get_cache_path`: cache file name for a URL,
the MD5 hex digest of the URL plus a `.json` extension. -/
def cachePathName (url : String) : String :=
  md5Hex (strBytes url) ++ ".json"

/-- `LiquipediaParser._get_cached`: the cached content for a URL when
caching is enabled, the file exists and the recorded timestamp is less
than 3600 seconds old; `none` otherwise. -/
def getCached (enabled : Bool) (disk : String → Option CacheEntry) (now : ℚ)
    (url : String) : Option String :=
  if enabled = false then none
  else
    match disk (cachePathName url) with
    | some e => if now - e.timestamp < 3600 then some e.content else none
    | none => none

/-- Python truthiness of the `cached` variable in `_fetch_page`
(`if cached:`): an empty cached string does not count as a hit. -/
def truthyOptStr : Option String → Bool
  | none => false
  | some s => s != ""

/-- `LiquipediaParser._rate_limit_wait`: seconds slept given the rate
limit, the last request timestamp and the current time. -/
def rateSleep (rateLimit lastRequestTime now : ℚ) : ℚ :=
  if now - lastRequestTime < rateLimit then rateLimit - (now - lastRequestTime)
  else 0

/-- The value `_rate_limit_wait` stores into `last_request_time`
afterwards: the current time once the sleep has elapsed (idealised exact
sleep). This is also the instant at which the following request is
issued. -/
def rateNextLast (rateLimit lastRequestTime now : ℚ) : ℚ :=
  now + rateSleep rateLimit lastRequestTime now

/-- The observable outcome of one `_fetch_page` call: the page body
handed to BeautifulSoup (`none` when the request failed), the cache file
written by `_save_cache` (name and entry), and the URLs requested over
the network. -/
structure FetchOutcome where
  page : Option String
  written : Option (String × CacheEntry)
  requested : List String
deriving DecidableEq

/-- `LiquipediaParser._fetch_page`: serve a truthy fresh cache entry
without touching the network; otherwise issue one GET for
`base_url + path`, and on success cache and return the body. -/
def fetchPage (enabled : Bool) (disk : String → Option CacheEntry) (now : ℚ)
    (net : String → Option String) (baseUrl path : String) : FetchOutcome :=
  let url := baseUrl ++ path
  let cached := getCached enabled disk now url
  if truthyOptStr cached then
    { page := cached, written := none, requested := [] }
  else
    match net url with
    | some content =>
        { page := some content
          written := if enabled then some (cachePathName url, ⟨now, content⟩) else none
          requested := [url] }
    | none => { page := none, written := none, requested := [url] }

end Liquipedia

/-!
## LiquipediaParser: HTML extraction (src/parsers/liquipedia.py)

A BeautifulSoup document is embedded as the data the extraction code
actually reads: per CSS selector, the stripped text of the matching
elements, and per element the attributes it queries.
-/

namespace Liquipedia

/-- An anchor tag as the code reads it: the `href` and `title`
attributes, and its stripped text. -/
structure LinkTag where
  href : Option String
  title : Option String
  text : String
deriving DecidableEq

/-- A `tournament-card` div: its first anchor (if any), and the stripped
texts of its `tournament-date` and `prize` child divs (if present). -/
structure TournamentCard where
  link : Option LinkTag
  dateDiv : Option String
  prizeDiv : Option String
deriving DecidableEq

/-- A `divRow` section of the tournament listing: the stripped text of
the preceding `h3` header (if any) and the tournament cards inside. -/
structure SectionRow where
  prevH3 : Option String
  cards : List TournamentCard
deriving DecidableEq

/-- A `brkts-match` div: stripped texts of its `brkts-opponent-entry`
and `brkts-opponent-score` children, and its `data-match-id` attribute. -/
structure MatchDiv where
  opponents : List String
  scores : List String
  dataMatchId : Option String
deriving DecidableEq

/-- The `infobox-center` div: for each of the Dates and Prize Pool rows,
whether the row was found and, if so, the stripped text of its next
sibling (if one exists). -/
structure Infobox where
  datesVal : Option (Option String)
  prizeVal : Option (Option String)
deriving DecidableEq

/-- A parsed Liquipedia page, restricted to the selectors the parser
queries. -/
structure Html where
  firstHeading : Option String
  infobox : Option Infobox
  teamcards : List (Option LinkTag)
  matchDivs : List MatchDiv
  divRows : List SectionRow
deriving DecidableEq

/-- `LiquipediaParser._parse_tournament_card`: `None` without an anchor;
otherwise the tournament record, with `dates` and `prize_pool` falling
back to the string `Unknown` when the corresponding div is absent. -/
def parseTournamentCard (baseUrl : String) (card : TournamentCard) (year : Int)
    (tier : String) : Option (List (String × JVal)) :=
  match card.link with
  | none => none
  | some link =>
      let tpath := link.href.getD ""
      some [("name", .str (link.title.getD link.text)),
            ("path", .str tpath),
            ("url", .str (baseUrl ++ tpath)),
            ("year", .num year),
            ("tier", .str tier),
            ("dates", .str (card.dateDiv.getD "Unknown")),
            ("prize_pool", .str (card.prizeDiv.getD "Unknown"))]

/-- `LiquipediaParser._parse_teams`: one record per teamcard that has an
anchor. -/
def parseTeams (teamcards : List (Option LinkTag)) : List (List (String × JVal)) :=
  teamcards.filterMap fun tl =>
    match tl with
    | some l => some [("name", .str (l.title.getD l.text)),
                      ("path", .str (l.href.getD ""))]
    | none => none

/-- `LiquipediaParser._parse_match`: `None` when a match div has fewer
than two opponent entries; otherwise the match record, where
out-of-range score indices give the empty string and a missing
`data-match-id` attribute gives the empty string.  (The `teams[0]` and
`teams[1]` accesses of the source are guarded by the length check, so
the defaulted index here can never be taken on the team fields.) -/
def parseMatch (d : MatchDiv) : Option (List (String × JVal)) :=
  if d.opponents.length < 2 then none
  else
    some [("team1", .str (d.opponents.getD 0 "")),
          ("team2", .str (d.opponents.getD 1 "")),
          ("score1", .str (d.scores.getD 0 "")),
          ("score2", .str (d.scores.getD 1 "")),
          ("match_id", .str (d.dataMatchId.getD ""))]

/-- `LiquipediaParser._parse_matches`: the records of the match divs
that parsed successfully, in order. -/
def parseMatches (divs : List MatchDiv) : List (List (String × JVal)) :=
  divs.filterMap parseMatch

/-- The `dates` (or `prize_pool`) value extracted from the infobox in
`get_tournament_details`: the initial empty string unless the row and
its next sibling both exist. -/
def infoboxField (v : Option (Option String)) : String :=
  match v with
  | some (some s) => s
  | _ => ""

/-- The details dictionary built by `get_tournament_details` from a
fetched page (keys in the insertion order of the source). -/
def tournamentDetails (baseUrl tpath : String) (h : Html) : List (String × JVal) :=
  [("path", .str tpath),
   ("url", .str (baseUrl ++ tpath)),
   ("name", .str (h.firstHeading.getD "")),
   ("dates", .str (infoboxField (h.infobox.map Infobox.datesVal |>.getD none))),
   ("prize_pool", .str (infoboxField (h.infobox.map Infobox.prizeVal |>.getD none))),
   ("teams", .arr ((parseTeams h.teamcards).map .obj)),
   ("matches", .arr ((parseMatches h.matchDivs).map .obj))]

/-- The tier filter of `get_tournaments`:
`if tier and tier.lower() not in section_tier.lower(): continue`. -/
def tierSkip (tier : Option String) (sectionTier : String) : Bool :=
  match tier with
  | some t => (t != "") && !(sectionTier.toLower.containsSubstr t.toLower)
  | none => false

/-- The tournament records extracted by `get_tournaments` from a fetched
listing page. -/
def parseTournaments (baseUrl : String) (h : Html) (year : Int)
    (tier : Option String) : List (List (String × JVal)) :=
  (h.divRows.map fun sec =>
    let sectionTier := sec.prevH3.getD "Unknown"
    if tierSkip tier sectionTier then []
    else sec.cards.filterMap fun c => parseTournamentCard baseUrl c year sectionTier).flatten

/-- `LiquipediaParser.get_tournaments`: fetch the year listing page and
extract tournaments; an unfetchable page gives the empty list.  Returns
the result together with the URLs requested over the network. -/
def getTournaments (enabled : Bool) (disk : String → Option CacheEntry) (now : ℚ)
    (net : String → Option String) (parse : String → Html) (baseUrl : String)
    (currentYear : Int) (year : Option Int) (tier : Option String) :
    List (List (String × JVal)) × List String :=
  let y := year.getD currentYear
  let fo := fetchPage enabled disk now net baseUrl ("/Dota_2/Tournaments/" ++ toString y)
  match fo.page with
  | none => ([], fo.requested)
  | some content => (parseTournaments baseUrl (parse content) y tier, fo.requested)

/-- `LiquipediaParser.get_tournament_details`: fetch the tournament page
and build the details dictionary; an unfetchable page gives `None`. -/
def getTournamentDetails (enabled : Bool) (disk : String → Option CacheEntry) (now : ℚ)
    (net : String → Option String) (parse : String → Html) (baseUrl tpath : String) :
    Option (List (String × JVal)) × List String :=
  let fo := fetchPage enabled disk now net baseUrl tpath
  match fo.page with
  | none => (none, fo.requested)
  | some content => (some (tournamentDetails baseUrl tpath (parse content)), fo.requested)

/-- `LiquipediaParser.search_tournament`: fetch the opensearch endpoint;
an unfetchable page gives the empty list (and the source returns the
empty `results` list on success as well). -/
def searchTournament (enabled : Bool) (disk : String → Option CacheEntry) (now : ℚ)
    (net : String → Option String) (baseUrl query : String) :
    List (List (String × JVal)) × List String :=
  let fo := fetchPage enabled disk now net baseUrl
    ("/api.php?action=opensearch&search=" ++ query ++ "&format=json")
  match fo.page with
  | none => ([], fo.requested)
  | some _ => ([], fo.requested)

end Liquipedia

/-!
## OpenDotaClient (src/parsers/opendota.py)

The HTTP layer is an oracle from requests (URL plus query parameters) to
`Option JVal`; `none` stands for a `requests.RequestException`, `some v`
for the decoded JSON body.
-/

namespace OpenDota

/-- One GET request as `_make_request` issues it: the full URL and the
query parameters passed to `session.get`. -/
structure Request where
  url : String
  params : List (String × JVal)

/-- `OpenDotaClient._make_request`: one request to
`base_url + endpoint`; the JSON body on success, `None` on a
`requests.RequestException`.  The second component lists the requests
issued (always exactly one: the source has no retry). -/
def makeRequest (net : Request → Option JVal) (baseUrl endpoint : String)
    (params : List (String × JVal)) : Option JVal × List Request :=
  let r : Request := { url := baseUrl ++ endpoint, params := params }
  (net r, [r])

/-- `OpenDotaClient.get_match`. -/
def getMatch (net : Request → Option JVal) (baseUrl : String) (matchId : Int) :
    Option JVal × List Request :=
  makeRequest net baseUrl ("/matches/" ++ toString matchId) []

/-- `OpenDotaClient.get_player`. -/
def getPlayer (net : Request → Option JVal) (baseUrl : String) (accountId : Int) :
    Option JVal × List Request :=
  makeRequest net baseUrl ("/players/" ++ toString accountId) []

/-- `OpenDotaClient.get_player_matches`: the `limit` query parameter is
clamped to `min(limit, 100)`. -/
def getPlayerMatches (net : Request → Option JVal) (baseUrl : String)
    (accountId limit : Int) : Option JVal × List Request :=
  makeRequest net baseUrl ("/players/" ++ toString accountId ++ "/matches")
    [("limit", .num (min limit 100))]

/-- `OpenDotaClient.get_team`. -/
def getTeam (net : Request → Option JVal) (baseUrl : String) (teamId : Int) :
    Option JVal × List Request :=
  makeRequest net baseUrl ("/teams/" ++ toString teamId) []

/-- `OpenDotaClient.get_team_matches`. -/
def getTeamMatches (net : Request → Option JVal) (baseUrl : String) (teamId : Int) :
    Option JVal × List Request :=
  makeRequest net baseUrl ("/teams/" ++ toString teamId ++ "/matches") []

/-- `OpenDotaClient.search_players`. -/
def searchPlayers (net : Request → Option JVal) (baseUrl query : String) :
    Option JVal × List Request :=
  makeRequest net baseUrl "/search" [("q", .str query)]

/-- `OpenDotaClient.get_pro_matches`: the pagination parameter is added
only when truthy (`if less_than_match_id:`), so `0` and `None` are both
dropped. -/
def getProMatches (net : Request → Option JVal) (baseUrl : String)
    (lessThanMatchId : Option Int) : Option JVal × List Request :=
  let params :=
    match lessThanMatchId with
    | some i => if i != 0 then [("less_than_match_id", JVal.num i)] else []
    | none => []
  makeRequest net baseUrl "/proMatches" params

/-- `OpenDotaClient.get_heroes`. -/
def getHeroes (net : Request → Option JVal) (baseUrl : String) :
    Option JVal × List Request :=
  makeRequest net baseUrl "/heroes" []

/-- The per-player reduction inside `parse_match_details`: `p.get(...)`
on each of the seven retained keys; `none` when an element of the
players list is not a dict (the attribute access would raise). -/
def parsePlayer : JVal → Option JVal
  | .obj pk =>
      some (.obj [("account_id", dGet pk "account_id"),
                  ("hero_id", dGet pk "hero_id"),
                  ("kills", dGet pk "kills"),
                  ("deaths", dGet pk "deaths"),
                  ("assists", dGet pk "assists"),
                  ("gold_per_min", dGet pk "gold_per_min"),
                  ("xp_per_min", dGet pk "xp_per_min")])
  | _ => none

/-- The list comprehension over `match_data.get('players', [])`. -/
def parsePlayers : List JVal → Option (List JVal)
  | [] => some []
  | p :: rest =>
      match parsePlayer p with
      | some q =>
          match parsePlayers rest with
          | some qs => some (q :: qs)
          | none => none
      | none => none

/-- `OpenDotaClient.parse_match_details`: the empty dict for a falsy
input; otherwise the flat eleven-key extraction, with `league_name`
read through the nested `league` object and `league_id` read from the
`leagueid` input key.  `none` models an uncaught exception: a truthy
non-dict input, a non-dict `league` value, a non-list `players` value
or a non-dict player entry. -/
def parseMatchDetails (matchData : JVal) : Option JVal :=
  if jTruthy matchData = false then some (.obj [])
  else
    match matchData with
    | .obj kvs =>
        match dGetD kvs "league" (.obj []) with
        | .obj lkvs =>
            match dGetD kvs "players" (.arr []) with
            | .arr ps =>
                match parsePlayers ps with
                | some players =>
                    some (.obj [("match_id", dGet kvs "match_id"),
                                ("duration", dGet kvs "duration"),
                                ("start_time", dGet kvs "start_time"),
                                ("radiant_win", dGet kvs "radiant_win"),
                                ("radiant_score", dGet kvs "radiant_score"),
                                ("dire_score", dGet kvs "dire_score"),
                                ("league_id", dGet kvs "leagueid"),
                                ("league_name", dGet lkvs "name"),
                                ("radiant_team_id", dGet kvs "radiant_team_id"),
                                ("dire_team_id", dGet kvs "dire_team_id"),
                                ("players", .arr players)])
                | none => none
            | _ => none
        | _ => none
    | _ => none

end OpenDota

/-!
## Dota2DataParser (src/main.py)
-/

namespace Main

/-- Decimal value of one digit character. -/
def digitChar? (c : Char) : Option Nat :=
  if c.isDigit then some (c.toNat - 48) else none

/-- Decimal value of a digit run, accumulator style. -/
def digitsValAux : List Char → Nat → Option Nat
  | [], acc => some acc
  | c :: rest, acc =>
      match digitChar? c with
      | some d => digitsValAux rest (10 * acc + d)
      | none => none

/-- Decimal value of a non-empty digit run; `none` on the empty run or
any non-digit. -/
def digitsVal : List Char → Option Nat
  | [] => none
  | cs => digitsValAux cs 0

/-- Python `int(s)` on a string: an optional sign followed by at least
one decimal digit (surrounding whitespace, not present in the scraped
ids this is applied to, is not modelled); `none` = `ValueError`. -/
def pyStrToInt (s : String) : Option Int :=
  match s.toList with
  | c :: rest =>
      if c = Char.ofNat 45 then (digitsVal rest).map fun n => -(n : Int)
      else if c = Char.ofNat 43 then (digitsVal rest).map fun n => (n : Int)
      else (digitsVal (c :: rest)).map fun n => (n : Int)
  | [] => none

/-- Python `int(x)` as applied to a match id: an int stays itself, a
bool becomes 0 or 1, a string parses as an optionally signed decimal
number, anything else raises (`none`). -/
def pyInt : JVal → Option Int
  | .num n => some n
  | .bool b => some (if b then 1 else 0)
  | .str s => pyStrToInt s
  | _ => none

/-- `Dota2DataParser.get_match_details`: look the match up on OpenDota
and run the raw body (or `None` on a failed request) through
`parse_match_details`. -/
def getMatchDetails (odNet : OpenDota.Request → Option JVal) (odBase : String)
    (matchId : Int) : Option JVal :=
  OpenDota.parseMatchDetails (((OpenDota.getMatch odNet odBase matchId).1).getD .null)

/-- The loop body of `get_tournament_with_match_details` for one match
dict: when `match.get('match_id')` is truthy, look the match up and
store the result under the `details` key; a `ValueError` from `int` or
any exception from the lookup is caught and leaves the dict unchanged. -/
def enrichMatch (odNet : OpenDota.Request → Option JVal) (odBase : String)
    (m : List (String × JVal)) : List (String × JVal) :=
  let mid := dGet m "match_id"
  if jTruthy mid = false then m
  else
    match pyInt mid with
    | none => m
    | some i =>
        match getMatchDetails odNet odBase i with
        | some d => dictSet m "details" d
        | none => m

/-- `Dota2DataParser.get_tournament_with_match_details`: fetch the
tournament from Liquipedia, then enrich each of its match dicts in
place.  `none` models the uncaught `AttributeError` when the Liquipedia
lookup returned `None`, or a non-dict where a match dict is expected. -/
def getTournamentWithMatchDetails (enabled : Bool)
    (disk : String → Option Liquipedia.CacheEntry) (now : ℚ)
    (lqNet : String → Option String) (parse : String → Liquipedia.Html)
    (lqBase : String) (odNet : OpenDota.Request → Option JVal) (odBase : String)
    (tpath : String) : Option (List (String × JVal)) :=
  match (Liquipedia.getTournamentDetails enabled disk now lqNet parse lqBase tpath).1 with
  | none => none
  | some t =>
      match dGetD t "matches" (.arr []) with
      | .arr ms =>
          match ms.mapM (fun mv =>
              match mv with
              | JVal.obj mk => some (JVal.obj (enrichMatch odNet odBase mk))
              | _ => none) with
          | some ms2 => some (dictSet t "matches" (.arr ms2))
          | none => none
      | _ => none

end Main

/-!
## Config (src/config.py)

`self._config` is the mapping loaded from YAML, embedded as an
association list (the loaded value is taken to be a mapping, as every
configuration the package ships is).  File persistence (`_save_config`)
does not affect the in-memory state and is not modelled.  `none` models
an uncaught exception on malformed configurations (a non-mapping where
a mapping is subscripted or tested for membership).
-/

namespace Cfg

/-- The in-memory state of a `Config` object. -/
structure Config where
  configPath : String
  cfg : List (String × JVal)

/-- The first half of `enable_source`: insert an empty mapping under a
key when the key is absent. -/
def ensureKey (kvs : List (String × JVal)) (k : String) (d : JVal) :
    List (String × JVal) :=
  match List.lookup k kvs with
  | none => dictSet kvs k d
  | some _ => kvs

/-- `Config.is_source_enabled`: `sources.get(name, {}).get('enabled', False)`
after `sources = self._config.get('data_sources', {})`. -/
def isSourceEnabled (c : Config) (s : String) : Option JVal :=
  match dGetD c.cfg "data_sources" (.obj []) with
  | .obj sources =>
      match (List.lookup s sources).getD (.obj []) with
      | .obj src => some ((List.lookup "enabled" src).getD (.bool false))
      | _ => none
  | _ => none

/-- `Config.enable_source`: create the `data_sources` mapping and the
per-source mapping when absent, then set `enabled` to `True`. -/
def enableSource (c : Config) (s : String) : Option Config :=
  match List.lookup "data_sources" (ensureKey c.cfg "data_sources" (.obj [])) with
  | some (.obj sources) =>
      match List.lookup s (ensureKey sources s (.obj [])) with
      | some (.obj src) =>
          some ⟨c.configPath,
            dictSet (ensureKey c.cfg "data_sources" (.obj [])) "data_sources"
              (.obj (dictSet (ensureKey sources s (.obj [])) s
                (.obj (dictSet src "enabled" (.bool true)))))⟩
      | _ => none
  | _ => none

/-- `Config.disable_source`: guarded by
`'data_sources' in self._config and source_name in self._config['data_sources']`,
then `...[source_name]['enabled'] = False`.  Python membership on a
mapping tests its keys; on a list it compares the name against the
elements and on a string it is a substring test — neither raises, and a
false test makes the method a silent no-op.  When the test passes, the
per-source subscripting and the item assignment require mappings, so a
passing test on a list- or string-valued `data_sources` (or a
non-mapping source entry) raises (`none`); membership on `None`, a bool
or a number raises by itself. -/
def disableSource (c : Config) (s : String) : Option Config :=
  match List.lookup "data_sources" c.cfg with
  | some (.obj sources) =>
      match List.lookup s sources with
      | some (.obj src) =>
          some ⟨c.configPath,
            dictSet c.cfg "data_sources"
              (.obj (dictSet sources s (.obj (dictSet src "enabled" (.bool false)))))⟩
      | some _ => none
      | none => some c
  | some (.arr xs) =>
      if xs.any (fun v => match v with | .str t => t == s | _ => false) then none
      else some c
  | some (.str t) => if t.containsSubstr s then none else some c
  | some _ => none
  | none => some c

/-- The `Config.__init__` path resolution plus YAML load, with the load
as an oracle from the path to the mapping: a missing `config_path`
argument falls back to the project-root default. -/
def configInit (defaultPath : String) (load : String → List (String × JVal))
    (p : Option String) : Config :=
  let path := p.getD defaultPath
  ⟨path, load path⟩

/-- `get_config`: the module-level singleton.  Takes the current value
of `_config_instance` and returns the result together with the new value
of `_config_instance`. -/
def getConfig (defaultPath : String) (load : String → List (String × JVal))
    (inst : Option Config) (p : Option String) : Config × Option Config :=
  match inst with
  | some c => (c, some c)
  | none =>
      let c := configInit defaultPath load p
      (c, some c)

end Cfg

/-!
## Claims
-/

/-- C4: between two consecutive non-cached requests of one client at
least `rate_limit` seconds elapse: the next request is issued at
`rateNextLast`, which is at least `last_request_time + rate_limit`;
when the elapsed time is below the rate limit the sleep is exactly
`rate_limit` minus the elapsed time, and a request whose elapsed time
already reaches the rate limit proceeds with no sleep.  The updated
`last_request_time` is the instant of the new request. -/
theorem rate_limit_spacing (rateLimit lastRequestTime now : ℚ) :
    lastRequestTime + rateLimit ≤ Liquipedia.rateNextLast rateLimit lastRequestTime now ∧
    (now - lastRequestTime < rateLimit →
      Liquipedia.rateSleep rateLimit lastRequestTime now =
        rateLimit - (now - lastRequestTime)) ∧
    (rateLimit ≤ now - lastRequestTime →
      Liquipedia.rateSleep rateLimit lastRequestTime now = 0) := by
  refine ⟨?_, fun h => if_pos h, fun h => if_neg (not_lt.mpr h)⟩
  unfold Liquipedia.rateNextLast Liquipedia.rateSleep
  by_cases h : now - lastRequestTime < rateLimit
  · rw [if_pos h]
    linarith
  · rw [if_neg h]
    push_neg at h
    linarith

/-- Witness for C4 at rate limit 2, last request at 0, current time 5. -/
theorem rate_limit_spacing_witness :
    ((2 : ℚ) ≤ 5 - 0) ∧ Liquipedia.rateSleep 2 0 5 = 0 :=
  ⟨by norm_num, (rate_limit_spacing 2 0 5).2.2 (by norm_num)⟩

/-- C8: `get_player_matches` always sends a `limit` query parameter of
`min(limit, 100)`, which never exceeds 100. -/
theorem player_matches_limit_clamped (net : OpenDota.Request → Option JVal)
    (baseUrl : String) (accountId limit : Int) :
    (OpenDota.getPlayerMatches net baseUrl accountId limit).2 =
      [⟨baseUrl ++ ("/players/" ++ toString accountId ++ "/matches"),
        [("limit", JVal.num (min limit 100))]⟩] ∧
    min limit 100 ≤ 100 :=
  ⟨rfl, min_le_right _ _⟩

/-- C9: `get_config` is a module-level singleton: the first call
constructs a `Config` from the given path (falling back to the default
path when none is given) and stores it; every later call returns the
stored instance unchanged, whatever path argument it receives. -/
theorem get_config_singleton (defaultPath : String)
    (load : String → List (String × JVal)) (c : Cfg.Config) (p p2 : Option String) :
    Cfg.getConfig defaultPath load none p =
      (Cfg.configInit defaultPath load p, some (Cfg.configInit defaultPath load p)) ∧
    Cfg.configInit defaultPath load p = ⟨p.getD defaultPath, load (p.getD defaultPath)⟩ ∧
    Cfg.getConfig defaultPath load (some c) p2 = (c, some c) :=
  ⟨rfl, rfl, rfl⟩

theorem fetchPage_all_fail (disk : String → Option Liquipedia.CacheEntry) (now : ℚ)
    (net : String → Option String) (baseUrl path : String)
    (hdisk : ∀ f, disk f = none) (hnet : ∀ u, net u = none) :
    Liquipedia.fetchPage true disk now net baseUrl path =
      ⟨none, none, [baseUrl ++ path]⟩ := by
  simp [Liquipedia.fetchPage, Liquipedia.getCached, Liquipedia.truthyOptStr, hdisk, hnet]

/-- C1: when the one network request a lookup issues raises
`requests.RequestException` (and no usable cache entry exists for the
Liquipedia fetches), `get_tournaments` and `search_tournament` return
the empty list, `get_tournament_details` returns `None`, every OpenDota
getter returns `None`, and in each case exactly one request was issued:
no retry. -/
theorem network_failure_empty_results
    (disk : String → Option Liquipedia.CacheEntry) (now : ℚ)
    (lqNet : String → Option String) (parse : String → Liquipedia.Html)
    (lqBase : String) (currentYear : Int) (year : Option Int) (tier : Option String)
    (query tpath : String)
    (odNet : OpenDota.Request → Option JVal) (odBase pq : String)
    (matchId accountId limit teamId : Int) (ltm : Option Int)
    (hdisk : ∀ f, disk f = none)
    (hlq : ∀ u, lqNet u = none)
    (hod : ∀ r, odNet r = none) :
    ((Liquipedia.getTournaments true disk now lqNet parse lqBase currentYear year tier).1 = [] ∧
      (Liquipedia.getTournaments true disk now lqNet parse lqBase currentYear year tier).2.length = 1) ∧
    ((Liquipedia.searchTournament true disk now lqNet lqBase query).1 = [] ∧
      (Liquipedia.searchTournament true disk now lqNet lqBase query).2.length = 1) ∧
    ((Liquipedia.getTournamentDetails true disk now lqNet parse lqBase tpath).1 = none ∧
      (Liquipedia.getTournamentDetails true disk now lqNet parse lqBase tpath).2.length = 1) ∧
    ((OpenDota.getMatch odNet odBase matchId).1 = none ∧
      (OpenDota.getMatch odNet odBase matchId).2.length = 1) ∧
    ((OpenDota.getPlayer odNet odBase accountId).1 = none ∧
      (OpenDota.getPlayer odNet odBase accountId).2.length = 1) ∧
    ((OpenDota.getPlayerMatches odNet odBase accountId limit).1 = none ∧
      (OpenDota.getPlayerMatches odNet odBase accountId limit).2.length = 1) ∧
    ((OpenDota.getTeam odNet odBase teamId).1 = none ∧
      (OpenDota.getTeam odNet odBase teamId).2.length = 1) ∧
    ((OpenDota.getTeamMatches odNet odBase teamId).1 = none ∧
      (OpenDota.getTeamMatches odNet odBase teamId).2.length = 1) ∧
    ((OpenDota.searchPlayers odNet odBase pq).1 = none ∧
      (OpenDota.searchPlayers odNet odBase pq).2.length = 1) ∧
    ((OpenDota.getProMatches odNet odBase ltm).1 = none ∧
      (OpenDota.getProMatches odNet odBase ltm).2.length = 1) ∧
    ((OpenDota.getHeroes odNet odBase).1 = none ∧
      (OpenDota.getHeroes odNet odBase).2.length = 1) := by
  have hfetch := fetchPage_all_fail disk now lqNet lqBase
  refine ⟨?_, ?_, ?_, ?_, ?_, ?_, ?_, ?_, ?_, ?_, ?_⟩ <;>
    simp [Liquipedia.getTournaments, Liquipedia.searchTournament,
      Liquipedia.getTournamentDetails, hfetch _ hdisk hlq,
      OpenDota.getMatch, OpenDota.getPlayer, OpenDota.getPlayerMatches,
      OpenDota.getTeam, OpenDota.getTeamMatches, OpenDota.searchPlayers,
      OpenDota.getProMatches, OpenDota.getHeroes, OpenDota.makeRequest, hod]

/-- Witness for C1: a disk with no cache files and a network that fails
every request. -/
theorem network_failure_empty_results_witness :
    (Liquipedia.getTournaments true (fun _ => none) 0 (fun _ => none)
        (fun _ => ⟨none, none, [], [], []⟩) "b" 2024 none none).1 = [] ∧
    (Liquipedia.getTournamentDetails true (fun _ => none) 0 (fun _ => none)
        (fun _ => ⟨none, none, [], [], []⟩) "b" "/T").1 = none ∧
    (OpenDota.getMatch (fun _ => none) "od" 5).1 = none := by
  have h := network_failure_empty_results (fun _ => none) 0 (fun _ => none)
    (fun _ => ⟨none, none, [], [], []⟩) "b" 2024 none none "q" "/T"
    (fun _ => none) "od" "pq" 5 6 7 8 none
    (fun _ => rfl) (fun _ => rfl) (fun _ => rfl)
  exact ⟨h.1.1, h.2.2.1.1, h.2.2.2.1.1⟩

theorem parsePlayers_spec (ps : List JVal) :
    ∀ qs, OpenDota.parsePlayers ps = some qs →
      qs.length = ps.length ∧
      ∀ i, i < ps.length → ∃ p q, ps[i]? = some p ∧ qs[i]? = some q ∧
        OpenDota.parsePlayer p = some q := by
  induction ps with
  | nil =>
    intro qs h
    simp [OpenDota.parsePlayers] at h
    subst h
    simp
  | cons p rest ih =>
    intro qs h
    simp only [OpenDota.parsePlayers] at h
    cases hp : OpenDota.parsePlayer p with
    | none => rw [hp] at h; cases h
    | some q =>
      rw [hp] at h
      cases hr : OpenDota.parsePlayers rest with
      | none => rw [hr] at h; cases h
      | some qs2 =>
        rw [hr] at h
        cases h
        obtain ⟨hlen, hidx⟩ := ih qs2 hr
        constructor
        · simp [hlen]
        · intro i hi
          cases i with
          | zero => exact ⟨p, q, by simp, by simp, hp⟩
          | succ j =>
            obtain ⟨p2, q2, h1, h2, h3⟩ := hidx j (by simpa using hi)
            exact ⟨p2, q2, by simpa using h1, by simpa using h2, h3⟩

theorem parseMatchDetails_obj_eq (kvs lkvs : List (String × JVal))
    (ps players : List JVal) (hne : kvs ≠ [])
    (hleague : dGetD kvs "league" (.obj []) = .obj lkvs)
    (hplayers : dGetD kvs "players" (.arr []) = .arr ps)
    (hps : OpenDota.parsePlayers ps = some players) :
    OpenDota.parseMatchDetails (.obj kvs) =
      some (.obj [("match_id", dGet kvs "match_id"),
                  ("duration", dGet kvs "duration"),
                  ("start_time", dGet kvs "start_time"),
                  ("radiant_win", dGet kvs "radiant_win"),
                  ("radiant_score", dGet kvs "radiant_score"),
                  ("dire_score", dGet kvs "dire_score"),
                  ("league_id", dGet kvs "leagueid"),
                  ("league_name", dGet lkvs "name"),
                  ("radiant_team_id", dGet kvs "radiant_team_id"),
                  ("dire_team_id", dGet kvs "dire_team_id"),
                  ("players", .arr players)]) := by
  have ht : jTruthy (JVal.obj kvs) = true := by
    cases kvs with
    | nil => exact absurd rfl hne
    | cons a t => simp [jTruthy]
  simp [OpenDota.parseMatchDetails, ht, hleague, hplayers, hps]

/-- C7: `parse_match_details` is a pure extraction: on a (non-empty)
input dict whose `league` value is a dict (or absent) and whose
`players` value is a list of dicts (or absent), it returns a flat dict
with exactly the eleven listed keys, each scalar equal to the
corresponding input field (`league_id` from the `leagueid` input key,
`league_name` from the nested `league` object), and a players list of
the same length whose entries are reduced to the seven per-player keys;
a falsy (empty or `None`) input gives the empty dict. -/
theorem parse_match_details_extraction (kvs lkvs : List (String × JVal))
    (ps players : List JVal) (hne : kvs ≠ [])
    (hleague : dGetD kvs "league" (.obj []) = .obj lkvs)
    (hplayers : dGetD kvs "players" (.arr []) = .arr ps)
    (hps : OpenDota.parsePlayers ps = some players) :
    (∃ out, OpenDota.parseMatchDetails (.obj kvs) = some (.obj out) ∧
      out.map Prod.fst = ["match_id", "duration", "start_time", "radiant_win",
        "radiant_score", "dire_score", "league_id", "league_name",
        "radiant_team_id", "dire_team_id", "players"] ∧
      List.lookup "match_id" out = some (dGet kvs "match_id") ∧
      List.lookup "duration" out = some (dGet kvs "duration") ∧
      List.lookup "start_time" out = some (dGet kvs "start_time") ∧
      List.lookup "radiant_win" out = some (dGet kvs "radiant_win") ∧
      List.lookup "radiant_score" out = some (dGet kvs "radiant_score") ∧
      List.lookup "dire_score" out = some (dGet kvs "dire_score") ∧
      List.lookup "league_id" out = some (dGet kvs "leagueid") ∧
      List.lookup "league_name" out = some (dGet lkvs "name") ∧
      List.lookup "radiant_team_id" out = some (dGet kvs "radiant_team_id") ∧
      List.lookup "dire_team_id" out = some (dGet kvs "dire_team_id") ∧
      List.lookup "players" out = some (.arr players)) ∧
    players.length = ps.length ∧
    (∀ i, i < ps.length → ∃ p q, ps[i]? = some p ∧ players[i]? = some q ∧
      OpenDota.parsePlayer p = some q) ∧
    (∀ pk, OpenDota.parsePlayer (.obj pk) =
      some (.obj [("account_id", dGet pk "account_id"),
                  ("hero_id", dGet pk "hero_id"),
                  ("kills", dGet pk "kills"),
                  ("deaths", dGet pk "deaths"),
                  ("assists", dGet pk "assists"),
                  ("gold_per_min", dGet pk "gold_per_min"),
                  ("xp_per_min", dGet pk "xp_per_min")])) ∧
    OpenDota.parseMatchDetails .null = some (.obj []) ∧
    OpenDota.parseMatchDetails (.obj []) = some (.obj []) := by
  obtain ⟨hlen, hidx⟩ := parsePlayers_spec ps players hps
  refine ⟨⟨_, parseMatchDetails_obj_eq kvs lkvs ps players hne hleague hplayers hps,
    rfl, rfl, rfl, rfl, rfl, rfl, rfl, rfl, rfl, rfl, rfl, rfl⟩,
    hlen, hidx, fun pk => rfl, rfl, rfl⟩

/-- Witness for C7: a match body with one player and no league object. -/
theorem parse_match_details_extraction_witness :
    OpenDota.parsePlayers [JVal.obj [("kills", JVal.num 3)]] =
      some [JVal.obj [("account_id", JVal.null), ("hero_id", JVal.null),
        ("kills", JVal.num 3), ("deaths", JVal.null), ("assists", JVal.null),
        ("gold_per_min", JVal.null), ("xp_per_min", JVal.null)]] ∧
    ([JVal.obj [("account_id", JVal.null), ("hero_id", JVal.null),
        ("kills", JVal.num 3), ("deaths", JVal.null), ("assists", JVal.null),
        ("gold_per_min", JVal.null), ("xp_per_min", JVal.null)]] : List JVal).length =
      ([JVal.obj [("kills", JVal.num 3)]] : List JVal).length :=
  ⟨rfl,
    (parse_match_details_extraction
      [("match_id", JVal.num 1), ("players", JVal.arr [JVal.obj [("kills", JVal.num 3)]])]
      [] [JVal.obj [("kills", JVal.num 3)]]
      [JVal.obj [("account_id", JVal.null), ("hero_id", JVal.null),
        ("kills", JVal.num 3), ("deaths", JVal.null), ("assists", JVal.null),
        ("gold_per_min", JVal.null), ("xp_per_min", JVal.null)]]
      (List.cons_ne_nil _ _) rfl rfl rfl).2.1⟩

/-- C10: `_parse_match` returns `None` for a match div with fewer than
two opponent entries; a parsed match carries `team1` and `team2` taken
from the first two opponent entries; and `_parse_matches` keeps exactly
the match divs that parsed, so every listed match has both teams. -/
theorem parse_match_requires_two_opponents (d : Liquipedia.MatchDiv)
    (l : List Liquipedia.MatchDiv) (m : List (String × JVal)) :
    (d.opponents.length < 2 → Liquipedia.parseMatch d = none) ∧
    (Liquipedia.parseMatch d = some m →
      2 ≤ d.opponents.length ∧
      List.lookup "team1" m = some (.str (d.opponents.getD 0 "")) ∧
      List.lookup "team2" m = some (.str (d.opponents.getD 1 ""))) ∧
    (m ∈ Liquipedia.parseMatches l → ∃ d2 ∈ l, Liquipedia.parseMatch d2 = some m) := by
  refine ⟨fun h => by simp [Liquipedia.parseMatch, h], fun h => ?_, fun h => ?_⟩
  · unfold Liquipedia.parseMatch at h
    by_cases hlt : d.opponents.length < 2
    · rw [if_pos hlt] at h
      cases h
    · rw [if_neg hlt] at h
      cases h
      exact ⟨not_lt.mp hlt, rfl, rfl⟩
  · simpa [Liquipedia.parseMatches, List.mem_filterMap] using
      (List.mem_filterMap.mp h).imp fun d2 hd2 => ⟨hd2.1, hd2.2⟩

/-- Witness for C10: a one-opponent div is dropped, a two-opponent div
parses with both teams. -/
theorem parse_match_requires_two_opponents_witness :
    Liquipedia.parseMatch ⟨["A"], [], none⟩ = none ∧
    (2 ≤ 2 ∧
      List.lookup "team1" [("team1", JVal.str "A"), ("team2", JVal.str "B"),
        ("score1", JVal.str ""), ("score2", JVal.str ""), ("match_id", JVal.str "")] =
        some (.str "A") ∧
      List.lookup "team2" [("team1", JVal.str "A"), ("team2", JVal.str "B"),
        ("score1", JVal.str ""), ("score2", JVal.str ""), ("match_id", JVal.str "")] =
        some (.str "B")) ∧
    (∃ d2 ∈ [(⟨["A", "B"], [], none⟩ : Liquipedia.MatchDiv)],
      Liquipedia.parseMatch d2 =
        some [("team1", JVal.str "A"), ("team2", JVal.str "B"),
          ("score1", JVal.str ""), ("score2", JVal.str ""), ("match_id", JVal.str "")]) := by
  refine ⟨(parse_match_requires_two_opponents ⟨["A"], [], none⟩ [] []).1 (by simp),
    (parse_match_requires_two_opponents ⟨["A", "B"], [], none⟩ [] _).2.1 rfl,
    (parse_match_requires_two_opponents ⟨["A", "B"], [], none⟩
      [⟨["A", "B"], [], none⟩] _).2.2 (List.mem_singleton.mpr rfl)⟩

/-- Counterexample to C3 as stated: a tournament card that has an
anchor but no `tournament-date` and no `prize` div yields the string
`Unknown` for `dates` and `prize_pool`, which is neither the empty
string nor `None`. -/
theorem tournament_card_unknown_counterexample :
    (Liquipedia.parseTournamentCard "b" ⟨some ⟨some "/x", some "T", "T"⟩, none, none⟩
        2024 "Premier").map (fun kvs => List.lookup "dates" kvs) =
      some (some (.str "Unknown")) ∧
    (Liquipedia.parseTournamentCard "b" ⟨some ⟨some "/x", some "T", "T"⟩, none, none⟩
        2024 "Premier").map (fun kvs => List.lookup "prize_pool" kvs) =
      some (some (.str "Unknown")) ∧
    JVal.str "Unknown" ≠ JVal.str "" ∧ JVal.str "Unknown" ≠ JVal.null := by
  refine ⟨rfl, rfl, by simp, by simp⟩

/-- C3 as amended: absent optional fields default silently, but the
tournament-card defaults are the string `Unknown` (not empty/None): a
card with no `tournament-date` div and no `prize` div gets `dates` and
`prize_pool` set to `Unknown`; a match div with no score elements gets
empty-string scores; and a key absent from the input of
`parse_match_details` comes out as `None`. -/
theorem optional_fields_defaults (baseUrl : String) (l : Liquipedia.LinkTag)
    (y : Int) (t : String) (d : Liquipedia.MatchDiv) (m kvs lkvs : List (String × JVal))
    (ps players : List JVal) :
    ((Liquipedia.parseTournamentCard baseUrl ⟨some l, none, none⟩ y t).map
        (fun kvs2 => List.lookup "dates" kvs2) = some (some (.str "Unknown")) ∧
      (Liquipedia.parseTournamentCard baseUrl ⟨some l, none, none⟩ y t).map
        (fun kvs2 => List.lookup "prize_pool" kvs2) = some (some (.str "Unknown"))) ∧
    (d.scores = [] → Liquipedia.parseMatch d = some m →
      List.lookup "score1" m = some (.str "") ∧
      List.lookup "score2" m = some (.str "")) ∧
    (kvs ≠ [] → dGetD kvs "league" (.obj []) = .obj lkvs →
      dGetD kvs "players" (.arr []) = .arr ps →
      OpenDota.parsePlayers ps = some players →
      List.lookup "duration" kvs = none →
      (OpenDota.parseMatchDetails (.obj kvs)).map
        (fun v => match v with
          | .obj out => List.lookup "duration" out
          | _ => none) = some (some JVal.null)) := by
  refine ⟨⟨rfl, rfl⟩, fun hs h => ?_, fun hne hl hp hpp habs => ?_⟩
  · unfold Liquipedia.parseMatch at h
    by_cases hlt : d.opponents.length < 2
    · rw [if_pos hlt] at h
      cases h
    · rw [if_neg hlt] at h
      cases h
      simp [hs, List.lookup]
  · rw [parseMatchDetails_obj_eq kvs lkvs ps players hne hl hp hpp]
    simp [List.lookup, dGet, habs]

/-- Witness for C3 (amended): a scoreless two-team match div and a
match body missing its `duration` key. -/
theorem optional_fields_defaults_witness :
    (List.lookup "score1" [("team1", JVal.str "A"), ("team2", JVal.str "B"),
        ("score1", JVal.str ""), ("score2", JVal.str ""), ("match_id", JVal.str "")] =
      some (.str "") ∧
      List.lookup "score2" [("team1", JVal.str "A"), ("team2", JVal.str "B"),
        ("score1", JVal.str ""), ("score2", JVal.str ""), ("match_id", JVal.str "")] =
      some (.str "")) ∧
    (OpenDota.parseMatchDetails (.obj [("match_id", JVal.num 1)])).map
      (fun v => match v with
        | .obj out => List.lookup "duration" out
        | _ => none) = some (some JVal.null) := by
  refine ⟨(optional_fields_defaults "b" ⟨none, none, "T"⟩ 2024 "t"
      ⟨["A", "B"], [], none⟩ _ [("match_id", JVal.num 1)] [] [] []).2.1 rfl rfl,
    (optional_fields_defaults "b" ⟨none, none, "T"⟩ 2024 "t"
      ⟨["A", "B"], [], none⟩ [] [("match_id", JVal.num 1)] [] [] []).2.2
      (List.cons_ne_nil _ _) rfl rfl rfl rfl⟩

theorem fetchPage_eq (enabled : Bool) (disk : String → Option Liquipedia.CacheEntry)
    (now : ℚ) (net : String → Option String) (baseUrl path : String) :
    Liquipedia.fetchPage enabled disk now net baseUrl path =
      if Liquipedia.truthyOptStr (Liquipedia.getCached enabled disk now (baseUrl ++ path)) then
        ⟨Liquipedia.getCached enabled disk now (baseUrl ++ path), none, []⟩
      else
        match net (baseUrl ++ path) with
        | some content =>
            ⟨some content,
              if enabled then
                some (Liquipedia.cachePathName (baseUrl ++ path), ⟨now, content⟩)
              else none,
              [baseUrl ++ path]⟩
        | none => ⟨none, none, [baseUrl ++ path]⟩ := rfl

theorem truthy_getCached_iff (enabled : Bool)
    (disk : String → Option Liquipedia.CacheEntry) (now : ℚ) (url : String) :
    Liquipedia.truthyOptStr (Liquipedia.getCached enabled disk now url) = true ↔
      enabled = true ∧ ∃ e, disk (Liquipedia.cachePathName url) = some e ∧
        now - e.timestamp < 3600 ∧ e.content ≠ "" := by
  unfold Liquipedia.getCached
  cases enabled with
  | false => simp [Liquipedia.truthyOptStr]
  | true =>
    simp only [if_neg (by simp : ¬(true = false)), true_and]
    cases hd : disk (Liquipedia.cachePathName url) with
    | none => simp [Liquipedia.truthyOptStr]
    | some e =>
      by_cases hfresh : now - e.timestamp < 3600
      · simp [if_pos hfresh, Liquipedia.truthyOptStr, bne_iff_ne, hfresh]
      · simp [if_neg hfresh, Liquipedia.truthyOptStr, hfresh]

theorem getCached_eq_of_fresh (disk : String → Option Liquipedia.CacheEntry)
    (now : ℚ) (url : String) (e : Liquipedia.CacheEntry)
    (hd : disk (Liquipedia.cachePathName url) = some e)
    (hfresh : now - e.timestamp < 3600) :
    Liquipedia.getCached true disk now url = some e.content := by
  simp [Liquipedia.getCached, hd, hfresh]

/-- Counterexample to C2 as stated: with caching on, a cache entry for
the URL that exists and is fresh (recorded timestamp 0, current time 0)
but has empty content does NOT serve the fetch from cache — the page is
re-requested over the network, because `_fetch_page` tests the cached
value for truthiness (`if cached:`) rather than for presence. -/
theorem fetch_cache_counterexample :
    ((fun _ => some (⟨0, ""⟩ : Liquipedia.CacheEntry))
        (Liquipedia.cachePathName ("b" ++ "/p")) =
      some (⟨0, ""⟩ : Liquipedia.CacheEntry)) ∧
    ((0 : ℚ) - (0 : ℚ) < 3600) ∧
    (Liquipedia.fetchPage true (fun _ => some ⟨0, ""⟩) 0 (fun _ => some "X")
        "b" "/p").requested ≠ [] := by
  have h36 : ((0 : ℚ) - 0 < 3600) := by norm_num
  refine ⟨rfl, h36, ?_⟩
  rw [fetchPage_eq]
  simp [Liquipedia.getCached, Liquipedia.truthyOptStr, h36]

/-- C2 as amended: `_fetch_page` caches each fetched body under the MD5
hex digest name of the URL, and a subsequent fetch is served from cache
(no network request) if and only if caching is enabled and the entry
exists, its recorded timestamp is less than 3600 seconds old, AND its
content is non-empty (truthiness, not mere presence); in the served
case the cached content is returned unchanged and nothing is written;
otherwise the page is re-fetched and, on success, the cache entry for
that name is overwritten with the new content and timestamp. -/
theorem fetch_cache_freshness (enabled : Bool)
    (disk : String → Option Liquipedia.CacheEntry) (now : ℚ)
    (net : String → Option String) (baseUrl path : String) :
    ((Liquipedia.fetchPage enabled disk now net baseUrl path).requested = [] ↔
      enabled = true ∧ ∃ e, disk (Liquipedia.cachePathName (baseUrl ++ path)) = some e ∧
        now - e.timestamp < 3600 ∧ e.content ≠ "") ∧
    ((Liquipedia.fetchPage enabled disk now net baseUrl path).requested = [] →
      ∃ e, disk (Liquipedia.cachePathName (baseUrl ++ path)) = some e ∧
        (Liquipedia.fetchPage enabled disk now net baseUrl path).page = some e.content ∧
        (Liquipedia.fetchPage enabled disk now net baseUrl path).written = none) ∧
    (∀ content, net (baseUrl ++ path) = some content →
      (Liquipedia.fetchPage enabled disk now net baseUrl path).requested ≠ [] →
      (Liquipedia.fetchPage enabled disk now net baseUrl path).page = some content ∧
      (Liquipedia.fetchPage enabled disk now net baseUrl path).written =
        (if enabled then
          some (Liquipedia.cachePathName (baseUrl ++ path), ⟨now, content⟩)
        else none) ∧
      (Liquipedia.fetchPage enabled disk now net baseUrl path).requested =
        [baseUrl ++ path]) ∧
    (net (baseUrl ++ path) = none →
      (Liquipedia.fetchPage enabled disk now net baseUrl path).requested ≠ [] →
      (Liquipedia.fetchPage enabled disk now net baseUrl path).page = none ∧
      (Liquipedia.fetchPage enabled disk now net baseUrl path).written = none) := by
  rw [fetchPage_eq]
  by_cases ht : Liquipedia.truthyOptStr
      (Liquipedia.getCached enabled disk now (baseUrl ++ path)) = true
  · rw [if_pos ht]
    obtain ⟨hen, e, hd, hfresh, hne⟩ := (truthy_getCached_iff enabled disk now _).mp ht
    subst hen
    refine ⟨by simpa using (truthy_getCached_iff true disk now _).mp ht, ?_, ?_, ?_⟩
    · intro _
      exact ⟨e, hd, by simp [getCached_eq_of_fresh disk now _ e hd hfresh], rfl⟩
    · intro content _ hreq
      exact absurd rfl hreq
    · intro _ hreq
      exact absurd rfl hreq
  · rw [if_neg ht]
    cases hn : net (baseUrl ++ path) with
    | some content =>
      refine ⟨?_, ?_, ?_, ?_⟩
      · simp only [List.cons_ne_nil, false_iff]
        exact fun hc => ht ((truthy_getCached_iff enabled disk now _).mpr hc)
      · intro hreq
        exact absurd hreq (by simp)
      · intro c2 hc2 _
        cases hc2
        exact ⟨rfl, rfl, rfl⟩
      · intro hnone
        exact Option.noConfusion hnone
    | none =>
      refine ⟨?_, ?_, ?_, ?_⟩
      · simp only [List.cons_ne_nil, false_iff]
        exact fun hc => ht ((truthy_getCached_iff enabled disk now _).mpr hc)
      · intro hreq
        exact absurd hreq (by simp)
      · intro c2 hc2 _
        exact Option.noConfusion hc2
      · intro _ _
        exact ⟨rfl, rfl⟩

/-- Witness for C2 (amended): a fresh non-empty entry is served without
a request; with an empty disk the page is fetched and written back. -/
theorem fetch_cache_freshness_witness :
    (Liquipedia.fetchPage true (fun _ => some ⟨0, "C"⟩) 0 (fun _ => none)
        "b" "/p").requested = [] ∧
    (∃ e, (fun _ => some (⟨0, "C"⟩ : Liquipedia.CacheEntry))
        (Liquipedia.cachePathName ("b" ++ "/p")) = some e ∧
      (Liquipedia.fetchPage true (fun _ => some ⟨0, "C"⟩) 0 (fun _ => none)
          "b" "/p").page = some e.content ∧
      (Liquipedia.fetchPage true (fun _ => some ⟨0, "C"⟩) 0 (fun _ => none)
          "b" "/p").written = none) ∧
    ((Liquipedia.fetchPage true (fun _ => none) 0 (fun _ => some "X")
        "b" "/p").page = some "X" ∧
      (Liquipedia.fetchPage true (fun _ => none) 0 (fun _ => some "X")
          "b" "/p").written =
        (if true then
          some (Liquipedia.cachePathName ("b" ++ "/p"), ⟨(0 : ℚ), "X"⟩)
        else none) ∧
      (Liquipedia.fetchPage true (fun _ => none) 0 (fun _ => some "X")
          "b" "/p").requested = ["b" ++ "/p"]) := by
  have hhit : (Liquipedia.fetchPage true (fun _ => some ⟨0, "C"⟩) 0 (fun _ => none)
      "b" "/p").requested = [] :=
    (fetch_cache_freshness true (fun _ => some ⟨0, "C"⟩) 0 (fun _ => none)
      "b" "/p").1.mpr ⟨rfl, ⟨0, "C"⟩, rfl, by norm_num, by simp⟩
  refine ⟨hhit,
    (fetch_cache_freshness true (fun _ => some ⟨0, "C"⟩) 0 (fun _ => none)
      "b" "/p").2.1 hhit,
    (fetch_cache_freshness true (fun _ => none) 0 (fun _ => some "X")
      "b" "/p").2.2.1 "X" rfl ?_⟩
  rw [fetchPage_eq]
  simp [Liquipedia.getCached, Liquipedia.truthyOptStr]

/-- Counterexample to C5 as stated: match records are NOT immutable
after construction.  For a tournament whose page holds one match div
with a numeric `data-match-id`, the match dict inside
`get_tournament_details` has the five parser keys, while after
`get_tournament_with_match_details` the same match dict has gained a
sixth key `details`. -/
theorem record_mutation_counterexample :
    ((Main.getTournamentWithMatchDetails true (fun _ => none) 0 (fun _ => some "page")
        (fun _ => ⟨none, none, [], [⟨["A", "B"], [], some "7"⟩], []⟩) "b"
        (fun _ => some (.obj [("match_id", JVal.num 7)])) "od" "/T").map
      (fun t => match dGetD t "matches" (.arr []) with
        | .arr (JVal.obj mk :: _) => mk.map Prod.fst
        | _ => [])) =
      some ["team1", "team2", "score1", "score2", "match_id", "details"] ∧
    (((Liquipedia.getTournamentDetails true (fun _ => none) 0 (fun _ => some "page")
        (fun _ => ⟨none, none, [], [⟨["A", "B"], [], some "7"⟩], []⟩) "b" "/T").1).map
      (fun t => match dGetD t "matches" (.arr []) with
        | .arr (JVal.obj mk :: _) => mk.map Prod.fst
        | _ => [])) =
      some ["team1", "team2", "score1", "score2", "match_id"] ∧
    (["team1", "team2", "score1", "score2", "match_id", "details"] : List String) ≠
      ["team1", "team2", "score1", "score2", "match_id"] := by
  refine ⟨rfl, rfl, by simp⟩

/-- C5 as amended: parsed records are never modified EXCEPT that
`get_tournament_with_match_details` stores the OpenDota lookup result
under the `details` key of each match dict whose `match_id` is truthy
and parses as an integer; every other key of a match dict keeps its
value, and an enrichment step either leaves the dict unchanged or only
sets `details`. -/
theorem enrich_match_details_only (odNet : OpenDota.Request → Option JVal)
    (odBase : String) (m : List (String × JVal)) (k : String)
    (hk : k ≠ "details") :
    List.lookup k (Main.enrichMatch odNet odBase m) = List.lookup k m ∧
    (Main.enrichMatch odNet odBase m = m ∨
      ∃ d2, Main.enrichMatch odNet odBase m = dictSet m "details" d2) := by
  simp only [Main.enrichMatch]
  split
  · exact ⟨rfl, Or.inl rfl⟩
  · split
    · exact ⟨rfl, Or.inl rfl⟩
    · split
      · exact ⟨lookup_dictSet_ne m "details" k _ hk, Or.inr ⟨_, rfl⟩⟩
      · exact ⟨rfl, Or.inl rfl⟩

/-- Witness for C5 (amended): enriching a match with a failing OpenDota
network leaves `team1` (and the whole dict) unchanged. -/
theorem enrich_match_details_only_witness :
    List.lookup "team1" (Main.enrichMatch (fun _ => none) "od"
        [("team1", JVal.str "A"), ("match_id", JVal.str "7")]) =
      List.lookup "team1" [("team1", JVal.str "A"), ("match_id", JVal.str "7")] :=
  (enrich_match_details_only (fun _ => none) "od"
    [("team1", JVal.str "A"), ("match_id", JVal.str "7")] "team1" (by simp)).1

/-- Counterexample to C6 as stated: with a list-valued `data_sources`
(as a user YAML file can supply), `disable_source` of a name not in the
list completes as a silent no-op — Python membership on a list does not
raise — but `is_source_enabled` then raises `AttributeError`
(`list.get` does not exist, modelled `none`) instead of returning
`False`, so the disable round-trip fails. -/
theorem config_disable_noop_counterexample :
    Cfg.disableSource
      ⟨"p", [("data_sources", JVal.arr [JVal.str "opendota"])]⟩ "liquipedia" =
      some ⟨"p", [("data_sources", JVal.arr [JVal.str "opendota"])]⟩ ∧
    Cfg.isSourceEnabled
      ⟨"p", [("data_sources", JVal.arr [JVal.str "opendota"])]⟩ "liquipedia" = none ∧
    (none : Option JVal) ≠ some (JVal.bool false) := by
  refine ⟨rfl, rfl, by simp⟩

/-- C6 as amended: on configurations whose `data_sources` value (when
present) is a mapping, the toggles round-trip: whenever `enable_source`
completes it leaves `is_source_enabled` returning `True`; whenever
`disable_source` completes it leaves `is_source_enabled` returning
`False`; and `is_source_enabled` returns `False` for a source absent
from the `data_sources` mapping or lacking an `enabled` key.  (On a
non-mapping `data_sources`, `disable_source` can complete as a no-op
while `is_source_enabled` raises; `enable_source` always raises there,
so its conjunct needs no restriction.) -/
theorem config_source_toggle_mapping (c c1 c2 : Cfg.Config) (s : String) :
    (Cfg.enableSource c s = some c1 →
      Cfg.isSourceEnabled c1 s = some (.bool true)) ∧
    ((∀ v, List.lookup "data_sources" c.cfg = some v → ∃ kvs, v = JVal.obj kvs) →
      Cfg.disableSource c s = some c2 →
      Cfg.isSourceEnabled c2 s = some (.bool false)) ∧
    (∀ sources, dGetD c.cfg "data_sources" (.obj []) = .obj sources →
      List.lookup s sources = none →
      Cfg.isSourceEnabled c s = some (.bool false)) ∧
    (∀ sources src, dGetD c.cfg "data_sources" (.obj []) = .obj sources →
      List.lookup s sources = some (.obj src) →
      List.lookup "enabled" src = none →
      Cfg.isSourceEnabled c s = some (.bool false)) := by
  refine ⟨?_, ?_, ?_, ?_⟩
  · intro h
    unfold Cfg.enableSource at h
    split at h
    · split at h
      · cases h
        simp [Cfg.isSourceEnabled, dGetD, lookup_dictSet_self]
      · cases h
    · cases h
  · intro hds h
    unfold Cfg.disableSource at h
    split at h
    · rename_i sources hsrc
      split at h
      · cases h
        simp [Cfg.isSourceEnabled, dGetD, lookup_dictSet_self]
      · cases h
      · rename_i hnone
        cases h
        simp [Cfg.isSourceEnabled, dGetD, hsrc, hnone, List.lookup]
    · rename_i xs hsrc
      obtain ⟨kvs, hk⟩ := hds _ hsrc
      cases hk
    · rename_i t hsrc
      obtain ⟨kvs, hk⟩ := hds _ hsrc
      cases hk
    · cases h
    · rename_i hnone
      cases h
      simp [Cfg.isSourceEnabled, dGetD, hnone, List.lookup]
  · intro sources hs habs
    simp [Cfg.isSourceEnabled, hs, habs, List.lookup]
  · intro sources src hs hsome hen
    simp [Cfg.isSourceEnabled, hs, hsome, hen, List.lookup]

/-- Witness for C6 (amended): enabling then disabling the source `x` on
concrete mapping-valued configurations, plus the absent-source and
missing-key defaults. -/
theorem config_source_toggle_mapping_witness :
    Cfg.isSourceEnabled
      ⟨"p", [("data_sources", JVal.obj [("x", JVal.obj [("enabled", JVal.bool true)])])]⟩
      "x" = some (.bool true) ∧
    Cfg.isSourceEnabled
      ⟨"p", [("data_sources", JVal.obj [("x", JVal.obj [("enabled", JVal.bool false)])])]⟩
      "x" = some (.bool false) ∧
    Cfg.isSourceEnabled (⟨"p", []⟩ : Cfg.Config) "x" = some (.bool false) ∧
    Cfg.isSourceEnabled
      (⟨"p", [("data_sources", JVal.obj [("x", JVal.obj [])])]⟩ : Cfg.Config)
      "x" = some (.bool false) := by
  refine ⟨(config_source_toggle_mapping ⟨"p", []⟩ _ ⟨"p", []⟩ "x").1 rfl,
    (config_source_toggle_mapping
      ⟨"p", [("data_sources", JVal.obj [("x", JVal.obj [("enabled", JVal.bool true)])])]⟩
      ⟨"p", []⟩ _ "x").2.1
      (fun v hv => ⟨[("x", JVal.obj [("enabled", JVal.bool true)])],
        (Option.some.inj hv).symm⟩) rfl,
    (config_source_toggle_mapping (⟨"p", []⟩ : Cfg.Config) ⟨"p", []⟩ ⟨"p", []⟩ "x").2.2.1
      [] rfl rfl,
    (config_source_toggle_mapping
      (⟨"p", [("data_sources", JVal.obj [("x", JVal.obj [])])]⟩ : Cfg.Config)
      ⟨"p", []⟩ ⟨"p", []⟩ "x").2.2.2 [("x", JVal.obj [])] [] rfl rfl rfl⟩
